import Mathlib

/-
Verification of the SigDigger audio channel lifecycle controller
(`AudioProcessor`, src/Default/Audio/AudioProcessor.cpp).

The controller is shallowly embedded as a pure transition system: the
member variables of `AudioProcessor` become the fields of `APState`,
every member function becomes a function `APState → ... → StepResult`,
and each outward call (playback sink, request tracker, remote analyzer,
Qt signal emission) becomes an element of an explicit effect list, in
the order the source performs the calls.  Floating-point quantities
(SUFLOAT/SUFREQ) are modelled as rationals; opaque external objects
(config templates, orbits) are modelled as natural-number identifiers.
C `assert` failures are recorded in the `assertFailed` flag of the
result.
-/

namespace SigDigger

/-- Tolerant comparison from sigutils (external library, not part of this
repository): `sufeq(a, b, tol)` holds when `|a - b| ≤ tol`.  Floats are
modelled as rationals. -/
def sufeq (a b tol : ℚ) : Bool :=
  decide (|a - b| ≤ tol)

/-- `Suscan::Channel`: the passband requested from the analyzer
(`AudioProcessor::openAudio` fills `bw`, `ft`, `fc`, `fLow`, `fHigh`). -/
structure Channel where
  bw : ℚ
  ft : ℚ
  fc : ℚ
  fLow : ℚ
  fHigh : ℚ
deriving DecidableEq

/-- The configuration snapshot written by `AudioProcessor::setParams`:
the six recognized `audio.*` fields of the inspector configuration. -/
structure AudioCfg where
  cutoff : ℚ
  volume : ℚ
  sampleRate : Nat
  demodulator : Nat
  squelch : Bool
  squelchLevel : ℚ
deriving DecidableEq

/-- One outward call performed by the controller: playback-sink calls,
tracker calls, remote-analyzer calls and emitted Qt signals. -/
inductive Effect where
  | pbSetVolume (v : ℚ)
  | pbSetSampleRate (r : Nat)
  | pbStart
  | pbStop
  | pbWrite (samples : List ℚ)
  | trackerRequestOpen (cls : String) (ch : Channel)
  | trackerCancelAll
  | closeInspector (handle : Nat)
  | setInspectorConfig (handle : Nat) (cfg : AudioCfg)
  | setInspectorFreq (handle : Nat) (freq : ℚ)
  | setInspectorDopplerCorrection (handle : Nat) (orbit : Nat)
  | audioError (msg : String)
  | audioOpened
deriving DecidableEq

/-- The member variables of `AudioProcessor`, plus the two externally
observable facts the code branches on: whether `m_analyzer` is non-null
(`analyzerLive`, with the analyzer's sample rate `analyzerRate`) and
whether `m_playBack` is non-null (`playBack`). -/
structure APState where
  enabled : Bool
  opening : Bool
  opened : Bool
  audioInspectorOpened : Bool
  settingRate : Bool
  analyzerLive : Bool
  analyzerRate : Nat
  playBack : Bool
  sampleRate : Nat
  cutOff : ℚ
  volume : ℚ
  squelch : Bool
  squelchLevel : ℚ
  demod : Nat
  lo : ℚ
  correctionEnabled : Bool
  orbit : Nat
  audioCfgTemplate : Option Nat
  audioInspHandle : Nat
  audioInspId : Nat
deriving DecidableEq

/-- Result of one controller step: the next state, the outward calls in
order, and whether a C `assert` in the executed path failed. -/
structure StepResult where
  state : APState
  effects : List Effect
  assertFailed : Bool
deriving DecidableEq

/-- `AudioProcessor::closeAudio` (AudioProcessor.cpp:130-149).  The
remote close / cancel / playback stop all sit inside
`if (m_opening || m_opened)`; the three booleans are reset
unconditionally afterwards. -/
def closeAudio (s : APState) : StepResult :=
  { state :=
      { s with opening := false, opened := false, audioInspectorOpened := false }
    effects :=
      if s.opening || s.opened then
        (if s.audioInspectorOpened then [Effect.closeInspector s.audioInspHandle] else [])
          ++ (if !s.opened then [Effect.trackerCancelAll] else [])
          ++ [Effect.pbStop]
      else []
    assertFailed := !s.analyzerLive }

/-- The configuration object built by `AudioProcessor::setParams`
(AudioProcessor.cpp:158-164).  The source writes `m_sampleRate` into
`audio.demodulator` (line 162), not `m_demod`. -/
def setParamsCfg (s : APState) : AudioCfg :=
  { cutoff := s.cutOff
    volume := 1
    sampleRate := s.sampleRate
    demodulator := s.sampleRate
    squelch := s.squelch
    squelchLevel := s.squelchLevel }

/-- `AudioProcessor::setParams` (AudioProcessor.cpp:151-168): asserts a
non-null template, a non-null analyzer and an opened inspector, then
pushes one full configuration write. -/
def setParams (s : APState) : StepResult :=
  if s.audioCfgTemplate.isSome && s.analyzerLive && s.audioInspectorOpened then
    { state := s
      effects := [Effect.setInspectorConfig s.audioInspHandle (setParamsCfg s)]
      assertFailed := false }
  else
    { state := s, effects := [], assertFailed := true }

/-- The channel prepared in `AudioProcessor::openAudio`
(AudioProcessor.cpp:100-111): the bandwidth is clamped to `maxFc`, the
edges are `∓bw/2`, and `fc` (the LO offset) is zeroed when it falls
outside `[-maxFc, maxFc]`.  `audioBw` stands for the header constant
`SIGDIGGER_AUDIO_INSPECTOR_BANDWIDTH` (defined outside src). -/
def openAudioChannel (audioBw maxFc lo : ℚ) : Channel :=
  let bw := if audioBw > maxFc then maxFc else audioBw
  { bw := bw
    ft := 0
    fc := if lo > maxFc ∨ lo < -maxFc then 0 else lo
    fLow := -(1 / 2) * bw
    fHigh := (1 / 2) * bw }

/-- `AudioProcessor::openAudio` (AudioProcessor.cpp:64-128).
`audioBw` is the header constant `SIGDIGGER_AUDIO_INSPECTOR_BANDWIDTH`;
`pbRate` is the effective rate the playback sink reports after
`start()`; `reqOk` is the boolean returned by
`m_tracker->requestOpen`. -/
def openAudio (s : APState) (audioBw : ℚ) (pbRate : Nat) (reqOk : Bool) : StepResult :=
  if !s.analyzerLive then { state := s, effects := [], assertFailed := true }
  else if s.opening then { state := s, effects := [], assertFailed := false }
  else if s.opened then { state := s, effects := [], assertFailed := false }
  else if s.playBack then
    let maxFc : ℚ := (s.analyzerRate : ℚ) / 2
    let reqRate : Nat :=
      if (s.sampleRate : ℚ) > audioBw then (Int.floor audioBw).toNat else s.sampleRate
    let s1 := { s with sampleRate := pbRate }
    let ch := openAudioChannel audioBw maxFc s1.lo
    { state := { s1 with opening := reqOk }
      effects :=
        [Effect.pbSetVolume s.volume, Effect.pbSetSampleRate reqRate, Effect.pbStart,
         Effect.trackerRequestOpen "audio" ch]
          ++ (if reqOk then []
              else [Effect.audioError "Internal Suscan error while opening audio inspector",
                    Effect.pbStop])
      assertFailed := false }
  else
    { state := { s with opening := false }
      effects := [Effect.audioError "Cannot enable audio, playback support failed to start"]
      assertFailed := false }

/-- `AudioProcessor::setEnabled` (AudioProcessor.cpp:203-217). -/
def setEnabled (s : APState) (enabled : Bool) (audioBw : ℚ) (pbRate : Nat) (reqOk : Bool) :
    StepResult :=
  if s.enabled != enabled then
    let s1 := { s with enabled := enabled }
    if enabled then
      if !s1.opened && !s1.opening then openAudio s1 audioBw pbRate reqOk
      else { state := s1, effects := [], assertFailed := false }
    else
      if s1.opened || s1.opening then closeAudio s1
      else { state := s1, effects := [], assertFailed := false }
  else { state := s, effects := [], assertFailed := false }

/-- `AudioProcessor::setSquelchEnabled` (AudioProcessor.cpp:219-228). -/
def setSquelchEnabled (s : APState) (enabled : Bool) : StepResult :=
  if s.squelch != enabled then
    let s1 := { s with squelch := enabled }
    if s1.audioInspectorOpened then setParams s1
    else { state := s1, effects := [], assertFailed := false }
  else { state := s, effects := [], assertFailed := false }

/-- `AudioProcessor::setSquelchLevel` (AudioProcessor.cpp:230-239). -/
def setSquelchLevel (s : APState) (level : ℚ) : StepResult :=
  if !sufeq s.squelchLevel level (1 / 100000000) then
    let s1 := { s with squelchLevel := level }
    if s1.audioInspectorOpened then setParams s1
    else { state := s1, effects := [], assertFailed := false }
  else { state := s, effects := [], assertFailed := false }

/-- `AudioProcessor::setVolume` (AudioProcessor.cpp:241-250): updates
only the cached `m_volume` (never the playback sink), with tolerance
`1e-1`. -/
def setVolume (s : APState) (volume : ℚ) : StepResult :=
  if !sufeq s.volume volume (1 / 10) then
    let s1 := { s with volume := volume }
    if s1.audioInspectorOpened then setParams s1
    else { state := s1, effects := [], assertFailed := false }
  else { state := s, effects := [], assertFailed := false }

/-- `AudioProcessor::setDemod` (AudioProcessor.cpp:272-281).  The
`AudioDemod` enumeration is modelled by its underlying value. -/
def setDemod (s : APState) (demod : Nat) : StepResult :=
  if s.demod != demod then
    let s1 := { s with demod := demod }
    if s1.audioInspectorOpened then setParams s1
    else { state := s1, effects := [], assertFailed := false }
  else { state := s, effects := [], assertFailed := false }

/-- `AudioProcessor::setSampleRate` (AudioProcessor.cpp:283-299). -/
def setSampleRate (s : APState) (rate : Nat) : StepResult :=
  if s.sampleRate != rate then
    let s1 := { s with sampleRate := rate }
    if s1.audioInspectorOpened then
      let r := setParams { s1 with settingRate := true }
      { state := r.state
        effects := Effect.pbSetSampleRate rate :: r.effects
        assertFailed := r.assertFailed }
    else
      { state := s1, effects := [Effect.pbSetSampleRate rate], assertFailed := false }
  else { state := s, effects := [], assertFailed := false }

/-- `AudioProcessor::setCutOff` (AudioProcessor.cpp:301-310). -/
def setCutOff (s : APState) (cutOff : ℚ) : StepResult :=
  if !sufeq s.cutOff cutOff (1 / 100000000) then
    let s1 := { s with cutOff := cutOff }
    if s1.audioInspectorOpened then setParams s1
    else { state := s1, effects := [], assertFailed := false }
  else { state := s, effects := [], assertFailed := false }

/-- The tail of `AudioProcessor::onOpened` (AudioProcessor.cpp:434-442):
record the handle/id pair, mark the inspector opened, push the first
configuration write, and push a Doppler correction when enabled. -/
def onOpenedConfigure (s : APState) (reqHandle reqId : Nat) : StepResult :=
  let s1 :=
    { s with audioInspHandle := reqHandle, audioInspId := reqId,
             audioInspectorOpened := true }
  let r := setParams s1
  { state := r.state
    effects :=
      r.effects
        ++ (if s1.correctionEnabled then
              [Effect.setInspectorDopplerCorrection s1.audioInspHandle s1.orbit]
            else [])
    assertFailed := r.assertFailed }

/-- `AudioProcessor::onOpened` (AudioProcessor.cpp:408-444).  `config`
is the template supplied by the remote side; `dupOk` tells whether
`suscan_config_dup` succeeds.  The duplication block is guarded by
`if (m_audioCfgTemplate != nullptr)` (line 423), so when no template is
held yet the block is skipped entirely. -/
def onOpened (s : APState) (reqHandle reqId config : Nat) (dupOk : Bool) : StepResult :=
  let s0 := { s with opening := false }
  if s0.analyzerLive then
    match s0.audioCfgTemplate with
    | some _ =>
      if dupOk then
        onOpenedConfigure { s0 with audioCfgTemplate := some config } reqHandle reqId
      else
        { state := { s0 with audioCfgTemplate := none }
          effects :=
            [Effect.closeInspector reqHandle,
             Effect.audioError "Failed to duplicate audio configuration"]
          assertFailed := false }
    | none => onOpenedConfigure s0 reqHandle reqId
  else { state := s0, effects := [], assertFailed := false }

/-- `AudioProcessor::onCancelled` (AudioProcessor.cpp:446-451). -/
def onCancelled (s : APState) : StepResult :=
  { state := { s with opening := false }
    effects := [Effect.pbStop]
    assertFailed := false }

/-- `AudioProcessor::onError` (AudioProcessor.cpp:453-461). -/
def onError (s : APState) (err : String) : StepResult :=
  { state := { s with opening := false }
    effects := [Effect.pbStop, Effect.audioError ("Failed to open audio channel: " ++ err)]
    assertFailed := false }

/-- The kinds of `Suscan::InspectorMessage` the controller switches on
(AudioProcessor.cpp:342-381); every other kind is `other`. -/
inductive MsgKind where
  | setConfig
  | wrongKind
  | wrongObject
  | wrongHandle
  | other
deriving DecidableEq

/-- An inbound inspector message: its inspector id, its kind, and the
value of the `audio.sample-rate` field of its embedded configuration
(`none` when `suscan_config_get_value` returns null). -/
structure InspMsg where
  inspectorId : Nat
  kind : MsgKind
  ackSampleRate : Option Int
deriving DecidableEq

/-- `AudioProcessor::onInspectorMessage` (AudioProcessor.cpp:336-384). -/
def onInspectorMessage (s : APState) (msg : InspMsg) : StepResult :=
  if s.audioInspectorOpened && msg.inspectorId == s.audioInspId then
    match msg.kind with
    | MsgKind.setConfig =>
      let s1 := if !s.opened then { s with opened := true } else s
      let s2 :=
        if s1.settingRate then
          match msg.ackSampleRate with
          | some v =>
            if (s1.sampleRate : Int) == v then { s1 with settingRate := false } else s1
          | none => { s1 with settingRate := false }
        else s1
      { state := s2
        effects := if !s.opened then [Effect.audioOpened] else []
        assertFailed := false }
    | MsgKind.wrongKind | MsgKind.wrongObject | MsgKind.wrongHandle =>
      if !s.opened then
        let r := closeAudio s
        { state := r.state
          effects := r.effects ++ [Effect.audioError "Unexpected error while opening audio channel"]
          assertFailed := r.assertFailed }
      else { state := s, effects := [], assertFailed := false }
    | MsgKind.other => { state := s, effects := [], assertFailed := false }
  else { state := s, effects := [], assertFailed := false }

/-- An inbound `Suscan::SamplesMessage`: inspector id and sample batch
(SUCOMPLEX samples modelled as rationals; only length and zeroness
matter to the controller). -/
structure SamplesMsg where
  inspectorId : Nat
  samples : List ℚ
deriving DecidableEq

/-- `AudioProcessor::onInspectorSamples` (AudioProcessor.cpp:386-406). -/
def onInspectorSamples (s : APState) (msg : SamplesMsg) : StepResult :=
  if s.opened && msg.inspectorId == s.audioInspId then
    { state := s
      effects :=
        [Effect.pbWrite
          (if s.settingRate then List.replicate msg.samples.length (0 : ℚ) else msg.samples)]
      assertFailed := false }
  else { state := s, effects := [], assertFailed := false }

/-- A concrete Configuring-state instance: the tracker open succeeded
(`onOpened` cleared `opening` and set `audioInspectorOpened`), but no
configuration acknowledgement has arrived yet (`opened = false`). -/
def configuringState : APState :=
  { enabled := true
    opening := false
    opened := false
    audioInspectorOpened := true
    settingRate := false
    analyzerLive := true
    analyzerRate := 1000000
    playBack := true
    sampleRate := 44100
    cutOff := 14000
    volume := 1 / 2
    squelch := false
    squelchLevel := 0
    demod := 1
    lo := 0
    correctionEnabled := false
    orbit := 0
    audioCfgTemplate := some 7
    audioInspHandle := 3
    audioInspId := 5 }

/-- A concrete Requesting-state instance for the first-ever open: the
open request is in flight and no configuration template has ever been
cloned (`audioCfgTemplate = none`). -/
def firstOpenState : APState :=
  { configuringState with
      opening := true
      audioInspectorOpened := false
      audioCfgTemplate := none }

/-- C1.  Explicit `closeAudio` from Configuring (`opening = false`,
`opened = false`, `audioInspectorOpened = true`): the source guard
`if (m_opening || m_opened)` is false, so the remote inspector is NOT
closed and playback is NOT stopped — no outward call is performed at
all — while the three booleans are still reset.  This contradicts the
claim that closing from Configuring closes the remote inspector and
stops playback. -/
theorem closeAudio_from_configuring_performs_no_close :
    (closeAudio configuringState).effects = []
      ∧ (closeAudio configuringState).state.opening = false
      ∧ (closeAudio configuringState).state.opened = false
      ∧ (closeAudio configuringState).state.audioInspectorOpened = false := by
  exact ⟨rfl, rfl, rfl, rfl⟩

/-- C2.  A tracker `opened` event arriving on the first successful open
(`audioCfgTemplate = none`): the duplication block is skipped because
it is guarded by `if (m_audioCfgTemplate != nullptr)`, so the supplied
template (here `42`) is never cloned (`audioCfgTemplate` stays `none`),
and the subsequent `setParams` call trips its
`assert(m_audioCfgTemplate != nullptr)`: no configuration write is
pushed and no error is surfaced.  This contradicts the claim that the
template is cloned on the first successful open. -/
theorem onOpened_first_open_skips_clone :
    (onOpened firstOpenState 9 11 42 true).state.audioCfgTemplate = none
      ∧ (onOpened firstOpenState 9 11 42 true).assertFailed = true
      ∧ (onOpened firstOpenState 9 11 42 true).effects = [] := by
  exact ⟨rfl, rfl, rfl⟩

/-- C4.  The full configuration write built by `setParams` at a state
whose selected demodulation mode is `1` but whose sample rate is
`44100`: the pushed `audio.demodulator` field carries the sample rate
(`44100`), not the selected mode — AudioProcessor.cpp:162 writes
`m_sampleRate` into `audio.demodulator`.  This contradicts the claim
that the demodulator field is set to the currently selected
demodulation mode. -/
theorem setParams_pushes_sample_rate_as_demodulator :
    (setParams configuringState).effects
        = [Effect.setInspectorConfig 3
            { cutoff := 14000, volume := 1, sampleRate := 44100,
              demodulator := 44100, squelch := false, squelchLevel := 0 }]
      ∧ configuringState.demod = 1
      ∧ configuringState.demod ≠ configuringState.sampleRate := by
  refine ⟨rfl, rfl, ?_⟩
  decide

/-- An Idle state whose playback sink failed to construct
(`m_playBack == nullptr`), under a live analyzer. -/
def idleNoPlayback : APState :=
  { configuringState with
      enabled := false
      audioInspectorOpened := false
      playBack := false
      audioCfgTemplate := none }

/-- C3 counterexample.  Enabling from `idleNoPlayback` fails (playback
start failure, one error emitted) and leaves `enabled = true`; calling
`setEnabled(true)` again is then a complete no-op — in particular it
does NOT issue a new tracker open request — because of the
`if (m_enabled != enabled)` guard.  This refutes the claim that a
subsequent `setEnabled(true)` restarts the open sequence. -/
theorem setEnabled_retry_after_failure_is_noop :
    (setEnabled idleNoPlayback true 200000 44100 true).effects
        = [Effect.audioError "Cannot enable audio, playback support failed to start"]
      ∧ (setEnabled idleNoPlayback true 200000 44100 true).state.enabled = true
      ∧ (setEnabled (setEnabled idleNoPlayback true 200000 44100 true).state
            true 200000 44100 true).effects = [] := by
  exact ⟨rfl, rfl, rfl⟩

/-- C3 amended.  Every externally visible failure handler (tracker
error event, playback/tracker failure inside `openAudio`, clone failure
in `onOpened`, wrong-state message while not yet opened) leaves
`opening = false` and `opened = false`; from such a state with the
channel still user-enabled, a single `setEnabled(true)` is a no-op, and
the open sequence is restarted from scratch — a new tracker open
request is issued — by `setEnabled(false)` followed by
`setEnabled(true)`. -/
theorem failure_state_reopens_after_toggle
    (s : APState) (audioBw : ℚ) (pbRate : Nat) (err : String)
    (reqHandle reqId config : Nat) (msg : InspMsg)
    (henb : s.enabled = true)
    (hopg : s.opening = false) (hopd : s.opened = false)
    (hal : s.analyzerLive = true) (hpb : s.playBack = true)
    (htpl : s.audioCfgTemplate.isSome = true)
    (hio : s.audioInspectorOpened = true)
    (hmid : msg.inspectorId = s.audioInspId)
    (hmk : msg.kind = MsgKind.wrongKind) :
    ((onError s err).state.opening = false ∧ (onError s err).state.opened = false)
      ∧ ((openAudio s audioBw pbRate false).state.opening = false
          ∧ (openAudio s audioBw pbRate false).state.opened = false)
      ∧ ((onOpened s reqHandle reqId config false).state.opening = false
          ∧ (onOpened s reqHandle reqId config false).state.opened = false)
      ∧ ((onInspectorMessage s msg).state.opening = false
          ∧ (onInspectorMessage s msg).state.opened = false)
      ∧ (setEnabled s true audioBw pbRate true).effects = []
      ∧ Effect.trackerRequestOpen "audio"
            (openAudioChannel audioBw ((s.analyzerRate : ℚ) / 2) s.lo)
          ∈ (setEnabled (setEnabled s false audioBw pbRate true).state
              true audioBw pbRate true).effects := by
  obtain ⟨tpl, htpl'⟩ := Option.isSome_iff_exists.mp htpl
  refine ⟨⟨by simp [onError], by simp [onError, hopd]⟩, ?_, ?_, ?_, ?_, ?_⟩
  · simp [openAudio, hal, hopg, hopd, hpb]
  · simp [onOpened, hal, htpl', hopd]
  · obtain ⟨mid, mkind, mack⟩ := msg
    simp only at hmid hmk
    subst hmid hmk
    simp [onInspectorMessage, hio, closeAudio, hopd]
  · simp [setEnabled, henb]
  · simp [setEnabled, henb, hopg, hopd, openAudio, hal, hpb]

/-- C3 witness: the amended theorem instantiated at `configuringState`
(user-enabled, `opening = opened = false`, live analyzer, working
playback), a wrong-kind message with the matching inspector id, and
concrete numeric arguments. -/
theorem failure_state_reopens_after_toggle_witness :
    ((onError configuringState "boom").state.opening = false
        ∧ (onError configuringState "boom").state.opened = false)
      ∧ ((openAudio configuringState 200000 44100 false).state.opening = false
          ∧ (openAudio configuringState 200000 44100 false).state.opened = false)
      ∧ ((onOpened configuringState 9 11 42 false).state.opening = false
          ∧ (onOpened configuringState 9 11 42 false).state.opened = false)
      ∧ ((onInspectorMessage configuringState
            { inspectorId := 5, kind := MsgKind.wrongKind, ackSampleRate := none }).state.opening
              = false
          ∧ (onInspectorMessage configuringState
              { inspectorId := 5, kind := MsgKind.wrongKind, ackSampleRate := none }).state.opened
              = false)
      ∧ (setEnabled configuringState true 200000 44100 true).effects = []
      ∧ Effect.trackerRequestOpen "audio"
            (openAudioChannel 200000 ((configuringState.analyzerRate : ℚ) / 2)
              configuringState.lo)
          ∈ (setEnabled (setEnabled configuringState false 200000 44100 true).state
              true 200000 44100 true).effects :=
  failure_state_reopens_after_toggle configuringState 200000 44100 "boom" 9 11 42
    { inspectorId := 5, kind := MsgKind.wrongKind, ackSampleRate := none }
    rfl rfl rfl rfl rfl rfl rfl rfl rfl

/-- A concrete Streaming state in the middle of a rate transition:
`opened = true`, `settingRate = true`, last requested rate `11025`. -/
def rateTransitionState : APState :=
  { configuringState with
      opened := true
      settingRate := true
      sampleRate := 11025 }

/-- C5 counterexample.  A config-acknowledged message for the current
inspector that does NOT carry the `audio.sample-rate` field
(`suscan_config_get_value` returns null) CLEARS `settingRate`
(AudioProcessor.cpp:361-365, the defensive "server is not behaving as
expected" branch), whereas the claim says the controller must then
remain in RateTransition. -/
theorem ack_without_rate_field_clears_settingRate :
    rateTransitionState.settingRate = true
      ∧ (onInspectorMessage rateTransitionState
          { inspectorId := 5, kind := MsgKind.setConfig, ackSampleRate := none }).state.settingRate
          = false := by
  exact ⟨rfl, rfl⟩

/-- C5 amended.  For a config-acknowledged message received while
`settingRate = true` (current inspector), `settingRate` is cleared if
and only if the acknowledgement either carries the requested sample
rate or does not carry the field at all; only an acknowledgement
carrying a different value leaves the controller in RateTransition. -/
theorem settingRate_cleared_iff
    (s : APState) (msg : InspMsg)
    (hio : s.audioInspectorOpened = true)
    (hmid : msg.inspectorId = s.audioInspId)
    (hmk : msg.kind = MsgKind.setConfig)
    (hsr : s.settingRate = true) :
    (onInspectorMessage s msg).state.settingRate = false
      ↔ (msg.ackSampleRate = none ∨ msg.ackSampleRate = some (s.sampleRate : Int)) := by
  obtain ⟨mid, mkind, mack⟩ := msg
  simp only at hmid hmk
  subst hmid hmk
  rcases mack with _ | v
  · by_cases ho : s.opened <;> simp [onInspectorMessage, hio, ho, hsr]
  · by_cases ho : s.opened <;> by_cases hv : (s.sampleRate : Int) = v <;>
      simp [onInspectorMessage, hio, ho, hsr, hv] <;>
      omega

/-- C5 witness: the amended theorem at `rateTransitionState` and an
acknowledgement carrying the requested rate `11025`. -/
theorem settingRate_cleared_iff_witness :
    (onInspectorMessage rateTransitionState
        { inspectorId := 5, kind := MsgKind.setConfig, ackSampleRate := some 11025 }).state.settingRate
        = false
      ↔ (({ inspectorId := 5, kind := MsgKind.setConfig, ackSampleRate := some 11025 } : InspMsg).ackSampleRate
            = none
          ∨ ({ inspectorId := 5, kind := MsgKind.setConfig, ackSampleRate := some 11025 } : InspMsg).ackSampleRate
            = some (rateTransitionState.sampleRate : Int)) :=
  settingRate_cleared_iff rateTransitionState
    { inspectorId := 5, kind := MsgKind.setConfig, ackSampleRate := some 11025 }
    rfl rfl rfl rfl

/-- Inside one open cycle a config-acknowledged message always leaves
`opened = true` and preserves the inspector filter fields; it emits
`audioOpened` exactly when `opened` was still false. -/
theorem setConfig_step_shape
    (s : APState) (msg : InspMsg)
    (hio : s.audioInspectorOpened = true)
    (hmid : msg.inspectorId = s.audioInspId)
    (hmk : msg.kind = MsgKind.setConfig) :
    (onInspectorMessage s msg).state.opened = true
      ∧ (onInspectorMessage s msg).state.audioInspectorOpened = s.audioInspectorOpened
      ∧ (onInspectorMessage s msg).state.audioInspId = s.audioInspId
      ∧ (onInspectorMessage s msg).effects
          = (if s.opened then [] else [Effect.audioOpened]) := by
  obtain ⟨mid, mkind, mack⟩ := msg
  simp only at hmid hmk
  subst hmid hmk
  rcases mack with _ | v
  · by_cases ho : s.opened <;> by_cases hsr : s.settingRate <;>
      simp [onInspectorMessage, hio, ho, hsr]
  · by_cases ho : s.opened <;> by_cases hsr : s.settingRate <;>
      by_cases hv : (s.sampleRate : Int) = v <;>
      simp [onInspectorMessage, hio, ho, hsr, hv]

/-- C6.  Within one open cycle the `audioOpened` notification fires
exactly once: the first config-acknowledged message received while
`opened = false` emits exactly one `audioOpened` and sets
`opened = true`, and a second config-acknowledged message in the same
cycle emits zero further `audioOpened` notifications. -/
theorem audioOpened_emitted_once_per_cycle
    (s : APState) (m1 m2 : InspMsg)
    (hio : s.audioInspectorOpened = true)
    (hopd : s.opened = false)
    (h1id : m1.inspectorId = s.audioInspId)
    (h1k : m1.kind = MsgKind.setConfig)
    (h2id : m2.inspectorId = s.audioInspId)
    (h2k : m2.kind = MsgKind.setConfig) :
    List.count Effect.audioOpened (onInspectorMessage s m1).effects = 1
      ∧ (onInspectorMessage s m1).state.opened = true
      ∧ List.count Effect.audioOpened
          (onInspectorMessage (onInspectorMessage s m1).state m2).effects = 0 := by
  obtain ⟨hopen1, hins1, hid1, heff1⟩ := setConfig_step_shape s m1 hio h1id h1k
  have h2id' : m2.inspectorId = (onInspectorMessage s m1).state.audioInspId := by
    rw [hid1]; exact h2id
  have hio1 : (onInspectorMessage s m1).state.audioInspectorOpened = true := by
    rw [hins1]; exact hio
  obtain ⟨hopen2, hins2, hid2, heff2⟩ :=
    setConfig_step_shape (onInspectorMessage s m1).state m2 hio1 h2id' h2k
  refine ⟨?_, hopen1, ?_⟩
  · rw [heff1, hopd]
    simp
  · rw [heff2, hopen1]
    simp

/-- C6 witness: two config-acknowledged messages processed from
`configuringState` (where `opened = false`). -/
theorem audioOpened_emitted_once_per_cycle_witness :
    List.count Effect.audioOpened
        (onInspectorMessage configuringState
          { inspectorId := 5, kind := MsgKind.setConfig, ackSampleRate := some 44100 }).effects = 1
      ∧ (onInspectorMessage configuringState
          { inspectorId := 5, kind := MsgKind.setConfig, ackSampleRate := some 44100 }).state.opened
          = true
      ∧ List.count Effect.audioOpened
          (onInspectorMessage
            (onInspectorMessage configuringState
              { inspectorId := 5, kind := MsgKind.setConfig, ackSampleRate := some 44100 }).state
            { inspectorId := 5, kind := MsgKind.setConfig, ackSampleRate := some 44100 }).effects
          = 0 :=
  audioOpened_emitted_once_per_cycle configuringState
    { inspectorId := 5, kind := MsgKind.setConfig, ackSampleRate := some 44100 }
    { inspectorId := 5, kind := MsgKind.setConfig, ackSampleRate := some 44100 }
    rfl rfl rfl rfl rfl rfl

/-- C7.  Sample forwarding: a batch is written to the playback sink
precisely when `opened = true` and its inspector id matches; while
`settingRate = true` the written batch is a zero-filled batch of the
same length, and once `settingRate` is false the batch is passed
through unmodified.  Every written batch preserves the incoming
length. -/
theorem samples_forwarded_iff_opened
    (s : APState) (msg : SamplesMsg) :
    (s.opened = true → msg.inspectorId = s.audioInspId →
        (onInspectorSamples s msg).effects
          = [Effect.pbWrite
              (if s.settingRate then List.replicate msg.samples.length (0 : ℚ)
               else msg.samples)])
      ∧ (¬(s.opened = true ∧ msg.inspectorId = s.audioInspId) →
          (onInspectorSamples s msg).effects = [])
      ∧ (∀ out, Effect.pbWrite out ∈ (onInspectorSamples s msg).effects →
          s.opened = true ∧ msg.inspectorId = s.audioInspId
            ∧ out.length = msg.samples.length) := by
  refine ⟨?_, ?_, ?_⟩
  · intro ho hid
    simp [onInspectorSamples, ho, hid]
  · intro h
    by_cases ho : s.opened <;> by_cases hid : msg.inspectorId = s.audioInspId <;>
      simp [onInspectorSamples, ho, hid]
    exact absurd ⟨ho, hid⟩ h
  · intro out hmem
    by_cases ho : s.opened <;> by_cases hid : msg.inspectorId = s.audioInspId <;>
      simp [onInspectorSamples, ho, hid] at hmem ⊢
    by_cases hsr : s.settingRate <;> simp [hsr] at hmem <;> simp [hmem]

/-- C7 witness: a two-sample batch arriving in `rateTransitionState`
(opened, matching id, `settingRate = true`) is replaced by a
zero-filled batch of the same length. -/
theorem samples_forwarded_iff_opened_witness :
    (onInspectorSamples rateTransitionState { inspectorId := 5, samples := [3, 4] }).effects
      = [Effect.pbWrite
          (if rateTransitionState.settingRate then
            List.replicate ({ inspectorId := 5, samples := [3, 4] } : SamplesMsg).samples.length
              (0 : ℚ)
           else ({ inspectorId := 5, samples := [3, 4] } : SamplesMsg).samples)] :=
  (samples_forwarded_iff_opened rateTransitionState { inspectorId := 5, samples := [3, 4] }).1
    rfl rfl

/-- C8.  The passband `openAudio` requests: with
`maxFc = analyzerRate / 2`, the effective bandwidth is the fixed audio
bandwidth clamped to `maxFc`, the edges are `∓bw/2`, and the center
frequency is the LO offset when `|lo| ≤ maxFc` and 0 otherwise; the
channel the tracker request carries is exactly this one. -/
theorem openAudio_passband_spec
    (s : APState) (audioBw : ℚ) (pbRate : Nat) (reqOk : Bool)
    (hal : s.analyzerLive = true) (hopg : s.opening = false)
    (hopd : s.opened = false) (hpb : s.playBack = true) :
    (openAudioChannel audioBw ((s.analyzerRate : ℚ) / 2) s.lo).fLow
        = -(min audioBw ((s.analyzerRate : ℚ) / 2) / 2)
      ∧ (openAudioChannel audioBw ((s.analyzerRate : ℚ) / 2) s.lo).fHigh
          = min audioBw ((s.analyzerRate : ℚ) / 2) / 2
      ∧ (openAudioChannel audioBw ((s.analyzerRate : ℚ) / 2) s.lo).bw
          = min audioBw ((s.analyzerRate : ℚ) / 2)
      ∧ (openAudioChannel audioBw ((s.analyzerRate : ℚ) / 2) s.lo).fc
          = (if |s.lo| ≤ (s.analyzerRate : ℚ) / 2 then s.lo else 0)
      ∧ Effect.trackerRequestOpen "audio"
            (openAudioChannel audioBw ((s.analyzerRate : ℚ) / 2) s.lo)
          ∈ (openAudio s audioBw pbRate reqOk).effects := by
  have hbw : (if audioBw > (s.analyzerRate : ℚ) / 2 then (s.analyzerRate : ℚ) / 2 else audioBw)
      = min audioBw ((s.analyzerRate : ℚ) / 2) := by
    rcases le_or_lt audioBw ((s.analyzerRate : ℚ) / 2) with h | h
    · rw [if_neg (not_lt.mpr h), min_eq_left h]
    · rw [if_pos h, min_eq_right h.le]
  have hfc : (if s.lo > (s.analyzerRate : ℚ) / 2 ∨ s.lo < -((s.analyzerRate : ℚ) / 2)
        then (0 : ℚ) else s.lo)
      = (if |s.lo| ≤ (s.analyzerRate : ℚ) / 2 then s.lo else 0) := by
    by_cases h : |s.lo| ≤ (s.analyzerRate : ℚ) / 2
    · obtain ⟨hlo, hhi⟩ := abs_le.mp h
      rw [if_neg, if_pos h]
      push_neg
      exact ⟨hhi, hlo⟩
    · have hcond : s.lo > (s.analyzerRate : ℚ) / 2 ∨ s.lo < -((s.analyzerRate : ℚ) / 2) := by
        rcases lt_abs.mp (not_le.mp h) with hgt | hgt
        · exact Or.inl hgt
        · exact Or.inr (by linarith)
      rw [if_pos hcond, if_neg h]
  refine ⟨?_, ?_, ?_, ?_, ?_⟩
  · simp only [openAudioChannel, hbw]
    ring
  · simp only [openAudioChannel, hbw]
    ring
  · simp only [openAudioChannel, hbw]
  · simp only [openAudioChannel, hfc]
  · simp [openAudio, hal, hopg, hopd, hpb]

/-- C8 witness: the passband theorem at `configuringState`
(analyzer rate 1000000, LO offset 0) with audio bandwidth 200000. -/
theorem openAudio_passband_spec_witness :
    (openAudioChannel 200000 ((configuringState.analyzerRate : ℚ) / 2) configuringState.lo).fLow
        = -(min 200000 ((configuringState.analyzerRate : ℚ) / 2) / 2)
      ∧ (openAudioChannel 200000 ((configuringState.analyzerRate : ℚ) / 2)
            configuringState.lo).fHigh
          = min 200000 ((configuringState.analyzerRate : ℚ) / 2) / 2
      ∧ (openAudioChannel 200000 ((configuringState.analyzerRate : ℚ) / 2)
            configuringState.lo).bw
          = min 200000 ((configuringState.analyzerRate : ℚ) / 2)
      ∧ (openAudioChannel 200000 ((configuringState.analyzerRate : ℚ) / 2)
            configuringState.lo).fc
          = (if |configuringState.lo| ≤ (configuringState.analyzerRate : ℚ) / 2 then
              configuringState.lo
             else 0)
      ∧ Effect.trackerRequestOpen "audio"
            (openAudioChannel 200000 ((configuringState.analyzerRate : ℚ) / 2)
              configuringState.lo)
          ∈ (openAudio configuringState 200000 44100 true).effects :=
  openAudio_passband_spec configuringState 200000 44100 true rfl rfl rfl rfl

/-- `sufeq` computes `false` exactly on inputs farther apart than the
tolerance. -/
theorem sufeq_eq_false (a b tol : ℚ) (h : ¬|a - b| ≤ tol) : sufeq a b tol = false := by
  simp [sufeq, h]

/-- C9 counterexample.  `setDemod` called with the currently selected
mode while the inspector is open performs no remote call (and no state
change) because of the `if (m_demod != demod)` guard; the analogous
guard protects every other setter.  This refutes the claim that every
setter call while open pushes a configuration write. -/
theorem setter_call_with_unchanged_value_pushes_nothing :
    configuringState.audioInspectorOpened = true
      ∧ configuringState.demod = 1
      ∧ (setDemod configuringState 1).effects = []
      ∧ (setDemod configuringState 1).state = configuringState := by
  exact ⟨rfl, rfl, rfl, rfl⟩

/-- C9 amended.  Every parameter-setter call that actually changes the
cached value (i.e. passes the setter's inequality / tolerance guard)
while `audioInspectorOpened = true` immediately pushes one full
configuration write of the complete tracked parameter set; the same
call with the inspector closed only updates the cached value and
performs no outward call; calls with an unchanged value do nothing. -/
theorem changed_setter_pushes_full_config
    (s : APState) (b : Bool) (lvl vol co : ℚ) (d : Nat)
    (hio : s.audioInspectorOpened = true)
    (htpl : s.audioCfgTemplate.isSome = true)
    (hal : s.analyzerLive = true)
    (hb : s.squelch ≠ b)
    (hlvl : ¬|s.squelchLevel - lvl| ≤ 1 / 100000000)
    (hvol : ¬|s.volume - vol| ≤ 1 / 10)
    (hco : ¬|s.cutOff - co| ≤ 1 / 100000000)
    (hd : s.demod ≠ d) :
    (setSquelchEnabled s b).effects
        = [Effect.setInspectorConfig s.audioInspHandle (setParamsCfg { s with squelch := b })]
      ∧ (setSquelchLevel s lvl).effects
          = [Effect.setInspectorConfig s.audioInspHandle
              (setParamsCfg { s with squelchLevel := lvl })]
      ∧ (setVolume s vol).effects
          = [Effect.setInspectorConfig s.audioInspHandle (setParamsCfg { s with volume := vol })]
      ∧ (setCutOff s co).effects
          = [Effect.setInspectorConfig s.audioInspHandle (setParamsCfg { s with cutOff := co })]
      ∧ (setDemod s d).effects
          = [Effect.setInspectorConfig s.audioInspHandle (setParamsCfg { s with demod := d })]
      ∧ (setSquelchEnabled { s with audioInspectorOpened := false } b).effects = []
      ∧ (setSquelchEnabled { s with audioInspectorOpened := false } b).state.squelch = b
      ∧ (setSquelchLevel { s with audioInspectorOpened := false } lvl).effects = []
      ∧ (setSquelchLevel { s with audioInspectorOpened := false } lvl).state.squelchLevel = lvl
      ∧ (setVolume { s with audioInspectorOpened := false } vol).effects = []
      ∧ (setVolume { s with audioInspectorOpened := false } vol).state.volume = vol
      ∧ (setCutOff { s with audioInspectorOpened := false } co).effects = []
      ∧ (setCutOff { s with audioInspectorOpened := false } co).state.cutOff = co
      ∧ (setDemod { s with audioInspectorOpened := false } d).effects = []
      ∧ (setDemod { s with audioInspectorOpened := false } d).state.demod = d := by
  have hlvl' := sufeq_eq_false _ _ _ hlvl
  have hvol' := sufeq_eq_false _ _ _ hvol
  have hco' := sufeq_eq_false _ _ _ hco
  simp only [one_div] at hlvl' hvol' hco'
  refine ⟨?_, ?_, ?_, ?_, ?_, ?_, ?_, ?_, ?_, ?_, ?_, ?_, ?_, ?_, ?_⟩ <;>
    simp [setSquelchEnabled, setSquelchLevel, setVolume, setCutOff, setDemod,
      setParams, hio, htpl, hal, hb, hlvl', hvol', hco', hd]

/-- C9 witness: the amended theorem at `configuringState` with
genuinely changed values for all five parameters. -/
theorem changed_setter_pushes_full_config_witness :
    (setSquelchEnabled configuringState true).effects
        = [Effect.setInspectorConfig configuringState.audioInspHandle
            (setParamsCfg { configuringState with squelch := true })]
      ∧ (setSquelchLevel configuringState 1).effects
          = [Effect.setInspectorConfig configuringState.audioInspHandle
              (setParamsCfg { configuringState with squelchLevel := 1 })]
      ∧ (setVolume configuringState 2).effects
          = [Effect.setInspectorConfig configuringState.audioInspHandle
              (setParamsCfg { configuringState with volume := 2 })]
      ∧ (setCutOff configuringState 15000).effects
          = [Effect.setInspectorConfig configuringState.audioInspHandle
              (setParamsCfg { configuringState with cutOff := 15000 })]
      ∧ (setDemod configuringState 2).effects
          = [Effect.setInspectorConfig configuringState.audioInspHandle
              (setParamsCfg { configuringState with demod := 2 })]
      ∧ (setSquelchEnabled { configuringState with audioInspectorOpened := false } true).effects
          = []
      ∧ (setSquelchEnabled { configuringState with
            audioInspectorOpened := false } true).state.squelch = true
      ∧ (setSquelchLevel { configuringState with audioInspectorOpened := false } 1).effects = []
      ∧ (setSquelchLevel { configuringState with
            audioInspectorOpened := false } 1).state.squelchLevel = 1
      ∧ (setVolume { configuringState with audioInspectorOpened := false } 2).effects = []
      ∧ (setVolume { configuringState with
            audioInspectorOpened := false } 2).state.volume = 2
      ∧ (setCutOff { configuringState with audioInspectorOpened := false } 15000).effects = []
      ∧ (setCutOff { configuringState with
            audioInspectorOpened := false } 15000).state.cutOff = 15000
      ∧ (setDemod { configuringState with audioInspectorOpened := false } 2).effects = []
      ∧ (setDemod { configuringState with
            audioInspectorOpened := false } 2).state.demod = 2 :=
  changed_setter_pushes_full_config configuringState true 1 2 15000 2
    rfl rfl rfl (by decide) (by norm_num [configuringState, lt_abs])
    (by norm_num [configuringState, lt_abs]) (by norm_num [configuringState, lt_abs])
    (by decide)

/-- C10.  `setVolume` never calls the playback sink's volume setter (in
any state); the sink volume is applied during `openAudio` from the
cached value; a `setVolume` call while the inspector is open and beyond
the `0.1` tolerance updates only the cached value and pushes a
configuration write whose remote volume field is fixed at unity; a call
within the tolerance does nothing at all. -/
theorem setVolume_never_updates_playback_volume
    (s : APState) (v audioBw : ℚ) (pbRate : Nat) (reqOk : Bool)
    (hal : s.analyzerLive = true) (hopg : s.opening = false)
    (hopd : s.opened = false) (hpb : s.playBack = true)
    (hio : s.audioInspectorOpened = true)
    (htpl : s.audioCfgTemplate.isSome = true)
    (hv : ¬|s.volume - v| ≤ 1 / 10) :
    (∀ (t : APState) (w x : ℚ), Effect.pbSetVolume x ∉ (setVolume t w).effects)
      ∧ Effect.pbSetVolume s.volume ∈ (openAudio s audioBw pbRate reqOk).effects
      ∧ (setVolume s v).state.volume = v
      ∧ (setVolume s v).effects
          = [Effect.setInspectorConfig s.audioInspHandle (setParamsCfg { s with volume := v })]
      ∧ (setParamsCfg { s with volume := v }).volume = 1
      ∧ (∀ w : ℚ, |s.volume - w| ≤ 1 / 10 →
          (setVolume s w).state = s ∧ (setVolume s w).effects = []) := by
  have hv' := sufeq_eq_false _ _ _ hv
  simp only [one_div] at hv'
  refine ⟨?_, ?_, ?_, ?_, ?_, ?_⟩
  · intro t w x
    by_cases h1 : sufeq t.volume w (1 / 10) <;>
      simp [setVolume, setParams, h1] <;>
      split_ifs <;> simp
  · simp [openAudio, hal, hopg, hopd, hpb]
  · simp [setVolume, hv', hio, setParams, htpl, hal]
  · simp [setVolume, hv', hio, setParams, htpl, hal]
  · simp [setParamsCfg]
  · intro w hw
    have hw' : sufeq s.volume w (1 / 10) = true := by
      simp only [sufeq, decide_eq_true_eq]
      exact hw
    simp only [one_div] at hw'
    simp [setVolume, hw']

/-- C10 witness: `setVolume` at `configuringState` (cached volume 1/2)
with the new value 2 (beyond the tolerance) and with the unchanged
value 1/2 (within the tolerance); playback volume is touched only by
`openAudio`. -/
theorem setVolume_never_updates_playback_volume_witness :
    Effect.pbSetVolume 7 ∉ (setVolume configuringState 2).effects
      ∧ Effect.pbSetVolume configuringState.volume
          ∈ (openAudio configuringState 200000 44100 true).effects
      ∧ (setVolume configuringState 2).state.volume = 2
      ∧ (setVolume configuringState 2).effects
          = [Effect.setInspectorConfig configuringState.audioInspHandle
              (setParamsCfg { configuringState with volume := 2 })]
      ∧ (setParamsCfg { configuringState with volume := 2 }).volume = 1
      ∧ (setVolume configuringState (1 / 2)).state = configuringState
      ∧ (setVolume configuringState (1 / 2)).effects = [] := by
  obtain ⟨h1, h2, h3, h4, h5, h6⟩ :=
    setVolume_never_updates_playback_volume configuringState 2 200000 44100 true
      rfl rfl rfl rfl rfl rfl (by norm_num [configuringState, lt_abs])
  obtain ⟨h6a, h6b⟩ := h6 (1 / 2) (by norm_num [configuringState])
  exact ⟨h1 configuringState 2 7, h2, h3, h4, h5, h6a, h6b⟩

end SigDigger
